import Mathlib

/-!
Shallow embedding of the mpd_client core, used to check the natural-language
specification against the code.

Embedded source files:
* src/mpd_client/src/commands/responses/mod.rs — the typed response layer
  (value parsers, duration parsing, Status / Stats converters).
* src/src/client.rs — the connection multiplexer (idle/command loop) and the
  client handle operations raw_command_list / command_list.

Types belonging to collaborating crates that are not part of the source tree
(mpd_protocol frames and responses, the error enums, Subsystem) are modelled
from the spec, as marked on each definition.
-/

namespace Mpd

/-! ## Frames (modelled from the spec) -/

/-- Modelled from the spec: a Frame is an ordered multimap of key/value
fields. The optional binary payload is omitted because no claim here
touches it. -/
structure Frame where
  fields : List (String × String)
deriving DecidableEq, Repr

/-- Helper for `Frame.get`: remove the first value stored under a key from a
field list, returning the value (if present) and the remaining fields. -/
def frameGetGo (key : String) : List (String × String) → Option String × List (String × String)
  | [] => (none, [])
  | (k, v) :: rest =>
    if k = key then (some v, rest)
    else ((frameGetGo key rest).1, (k, v) :: (frameGetGo key rest).2)

/-- Modelled from the spec: lookup-and-remove the first value stored under a
key (the consuming `Frame::get` of mpd_protocol). When the key is absent the
frame is returned unchanged. -/
def Frame.get (f : Frame) (key : String) : Option String × Frame :=
  ((frameGetGo key f.fields).1, ⟨(frameGetGo key f.fields).2⟩)

/-- Number of fields remaining in a frame (`fields_len` in the source). -/
def Frame.fields_len (f : Frame) : Nat := f.fields.length

/-- All values stored under the key `changed`, in insertion order. -/
def changedValues (f : Frame) : List String :=
  f.fields.filterMap (fun p => if p.1 = "changed" then some p.2 else none)

/-! ## Typed conversion errors (from src/mpd_client, spec section 6) -/

/-- Error kinds of TypedResponseError. The payloads of the malformed-number
variants (std parse errors) are not observable in any claim and are dropped. -/
inductive ErrorKind
  | missing
  | malformedInteger
  | malformedFloat
  | invalidValue (value : String)
  | unexpectedField
deriving DecidableEq, Repr

/-- Error produced by the typed response conversion layer. -/
structure TypedResponseError where
  field : String
  kind : ErrorKind
deriving DecidableEq, Repr

/-! ## A model of f64 and of Rust float/integer parsing

The duration parser of the source operates on an `f64`. The claims about it
concern the classification of the parsed value (NaN / infinite / finite,
sign, magnitude), not rounding, so the model keeps finite values as exact
rationals and represents the non-finite values explicitly. Comparisons follow
IEEE semantics: every comparison with NaN is false. -/

/-- Model of an f64 value: NaN, the two infinities, or a finite value kept as
an exact rational. -/
inductive F64
  | nan
  | inf
  | negInf
  | finite (q : ℚ)
deriving DecidableEq, Repr

/-- Model of `f64::is_finite`. -/
def F64.is_finite : F64 → Bool
  | .finite _ => true
  | _ => false

/-- Model of the comparison `v >= 0.0` (false for NaN). -/
def F64.ge_zero : F64 → Bool
  | .nan => false
  | .inf => true
  | .negInf => false
  | .finite q => decide (0 ≤ q)

/-- Model of the comparison `v <= c` against a finite constant (false for
NaN). -/
def F64.le_finite : F64 → ℚ → Bool
  | .nan, _ => false
  | .inf, _ => false
  | .negInf, _ => true
  | .finite q, c => decide (q ≤ c)

/-- Digit list to natural number. -/
def digitsToNat (cs : List Char) : Nat :=
  cs.foldl (fun n c => n * 10 + (c.toNat - 48)) 0

/-- True when every character is an ASCII digit. -/
def allDigits (cs : List Char) : Bool :=
  cs.all (·.isDigit)

/-- Parse the mantissa of a decimal float: digits around at most one dot,
with at least one digit present. -/
def parseDecimalMantissa (cs : List Char) : Option ℚ :=
  match cs.splitOn '.' with
  | [ip] =>
    if !ip.isEmpty && allDigits ip then some ((digitsToNat ip : ℚ)) else none
  | [ip, fp] =>
    if (!ip.isEmpty || !fp.isEmpty) && allDigits ip && allDigits fp then
      some ((digitsToNat ip : ℚ) + (digitsToNat fp : ℚ) / ((10 : ℚ) ^ fp.length))
    else none
  | _ => none

/-- Split a character list at the first exponent marker, if any. -/
def splitExp (cs : List Char) : List Char × Option (List Char) :=
  match cs.findIdx? (fun c => c == 'e' || c == 'E') with
  | none => (cs, none)
  | some i => (cs.take i, some (cs.drop (i + 1)))

/-- Parse an exponent: optional sign followed by at least one digit. -/
def parseExp (cs : List Char) : Option ℤ :=
  match cs with
  | [] => none
  | '+' :: rest =>
    if !rest.isEmpty && allDigits rest then some ((digitsToNat rest : ℤ)) else none
  | '-' :: rest =>
    if !rest.isEmpty && allDigits rest then some (-(digitsToNat rest : ℤ)) else none
  | _ => if allDigits cs then some ((digitsToNat cs : ℤ)) else none

/-- Parse an unsigned decimal number with optional fraction and exponent. -/
def parseNumber (cs : List Char) : Option ℚ :=
  match splitExp cs with
  | (m, none) => parseDecimalMantissa m
  | (m, some ecs) =>
    match parseDecimalMantissa m, parseExp ecs with
    | some mv, some ev => some (mv * (10 : ℚ) ^ ev)
    | _, _ => none

/-- Model of `str::parse::<f64>` (Rust `f64::from_str`): an optional sign
followed by `inf`, `infinity` or `nan` (case-insensitive) or by a decimal
number with optional fraction and exponent. Finite results are kept exact
instead of being rounded to the nearest f64. -/
def parseF64 (s : String) : Option F64 :=
  match s.toList with
  | [] => none
  | c :: rest =>
    let neg := c = '-'
    let body := if c = '-' || c = '+' then rest else c :: rest
    let lower := body.map Char.toLower
    if lower = "inf".toList || lower = "infinity".toList then
      some (if neg then .negInf else .inf)
    else if lower = "nan".toList then
      some .nan
    else
      match parseNumber body with
      | some q => some (.finite (if neg then -q else q))
      | none => none

/-! ## Durations -/

/-- Model of std Duration; the claims only inspect the seconds value, which
is kept as an exact rational. -/
structure Duration where
  secs : ℚ
deriving DecidableEq, Repr

/-- Model of `Duration::from_secs_f64`. Total: the non-finite arguments (on
which the Rust function would panic) map to zero, but the source only applies
this under a guard that excludes them. -/
def Duration.from_secs_f64 : F64 → Duration
  | .finite q => ⟨q⟩
  | _ => ⟨0⟩

/-- The value of `Duration::MAX.as_secs_f64()`: the f64 nearest to
2^64 - 1 + 999999999e-9 is exactly 2^64. -/
def durationMaxSecsF64 : ℚ := 2 ^ 64

/-- Zero duration (`Duration::ZERO`). -/
def Duration.ZERO : Duration := ⟨0⟩

/-- The `parse_duration` function of responses/mod.rs: parse the value as an
f64, then accept it iff it is at least zero, at most
`Duration::MAX.as_secs_f64()` and finite. -/
def parse_duration (field : String) (value : String) : Except TypedResponseError Duration :=
  match parseF64 value with
  | none => .error ⟨field, .malformedFloat⟩
  | some v =>
    if v.ge_zero && v.le_finite durationMaxSecsF64 && v.is_finite then
      .ok (Duration.from_secs_f64 v)
    else
      .error ⟨field, .invalidValue value⟩

/-! ## Integer and enum field parsers -/

/-- Model of Rust unsigned-integer `from_str`: an optional leading plus sign
followed by at least one digit, nothing else. -/
def parseUnsignedNat (s : String) : Option Nat :=
  let cs := match s.toList with
    | '+' :: rest => rest
    | cs => cs
  if !cs.isEmpty && allDigits cs then some (digitsToNat cs) else none

/-- Largest u8 value. -/
def u8Max : Nat := 2 ^ 8 - 1
/-- Largest u32 value. -/
def u32Max : Nat := 2 ^ 32 - 1
/-- Largest u64 value. -/
def u64Max : Nat := 2 ^ 64 - 1
/-- Largest usize value on a 64-bit target. -/
def usizeMax : Nat := 2 ^ 64 - 1

/-- The `parse_integer` function of responses/mod.rs, with the width of the
target type passed explicitly. A value that does not parse, or overflows the
width, is a MalformedInteger error. -/
def parse_integer (maxVal : Nat) (v : String) (field : String) : Except TypedResponseError Nat :=
  match parseUnsignedNat v with
  | some n => if n ≤ maxVal then .ok n else .error ⟨field, .malformedInteger⟩
  | none => .error ⟨field, .malformedInteger⟩

/-- FromFieldValue for bool: exactly the strings 0 and 1. -/
def bool_from_value (v : String) (field : String) : Except TypedResponseError Bool :=
  match v with
  | "0" => .ok false
  | "1" => .ok true
  | _ => .error ⟨field, .invalidValue v⟩

/-- Playback states. -/
inductive PlayState
  | stopped
  | playing
  | paused
deriving DecidableEq, Repr

/-- FromFieldValue for PlayState. -/
def PlayState.from_value (v : String) (field : String) : Except TypedResponseError PlayState :=
  match v with
  | "play" => .ok .playing
  | "pause" => .ok .paused
  | "stop" => .ok .stopped
  | _ => .error ⟨field, .invalidValue v⟩

/-- FromFieldValue for Duration. -/
def Duration.from_value (v : String) (field : String) : Except TypedResponseError Duration :=
  parse_duration field v

/-- Single mode (from crate::commands, spec section 4.3). -/
inductive SingleMode
  | disabled
  | enabled
  | oneshot
deriving DecidableEq, Repr

/-- Song position in the queue (usize newtype). -/
structure SongPosition where
  pos : Nat
deriving DecidableEq, Repr

/-- Song id (u64 newtype). -/
structure SongId where
  id : Nat
deriving DecidableEq, Repr

/-! ## Field lookup helpers (`value` / `optional_value`) -/

/-- The `value` helper of responses/mod.rs: get a required field and convert
it; an absent field is a Missing error. The updated frame is returned
alongside because `Frame::get` consumes the field. -/
def value {α : Type} (fromVal : String → String → Except TypedResponseError α)
    (f : Frame) (field : String) : Except TypedResponseError (α × Frame) :=
  match Frame.get f field with
  | (none, _) => .error ⟨field, .missing⟩
  | (some v, f') => (fromVal v field).map (fun a => (a, f'))

/-- The `optional_value` helper of responses/mod.rs: get an optional field
and convert it when present. -/
def optional_value {α : Type} (fromVal : String → String → Except TypedResponseError α)
    (f : Frame) (field : String) : Except TypedResponseError (Option α × Frame) :=
  match Frame.get f field with
  | (none, f') => .ok (none, f')
  | (some v, f') => (fromVal v field).map (fun a => (some a, f'))

/-- The `song_identifier` helper of responses/mod.rs: None when the position
field is absent; when present, the id field is required and the pair is
returned. -/
def song_identifier (f : Frame) (position_field id_field : String) :
    Except TypedResponseError (Option (SongPosition × SongId) × Frame) :=
  match optional_value (parse_integer usizeMax) f position_field with
  | .error e => .error e
  | .ok (none, f') => .ok (none, f')
  | .ok (some p, f') =>
    match value (parse_integer u64Max) f' id_field with
    | .error e => .error e
    | .ok (i, f'') => .ok (some (⟨p⟩, ⟨i⟩), f'')

/-- Model of `str::split_once`: split at the first occurrence of the
separator, returning the parts before and after it. -/
def split_once (s : String) (sep : Char) : Option (String × String) :=
  match s.toList.findIdx? (· == sep) with
  | none => none
  | some i => some (⟨s.toList.take i⟩, ⟨s.toList.drop (i + 1)⟩)

/-! ## Status converter -/

/-- The Status response record. -/
structure Status where
  volume : Nat
  state : PlayState
  repeatMode : Bool
  random : Bool
  consume : Bool
  single : SingleMode
  playlist_version : Nat
  playlist_length : Nat
  current_song : Option (SongPosition × SongId)
  next_song : Option (SongPosition × SongId)
  elapsed : Option Duration
  duration : Option Duration
  bitrate : Option Nat
  crossfade : Duration
  update_job : Option Nat
  error : Option String
  partition : Option String
deriving DecidableEq, Repr

/-- First block of `Status::from_frame`: consume the `single` field; absent
defaults to Disabled, the values 0 / 1 / oneshot map to the three modes, and
anything else is an InvalidValue error. -/
def statusSingle (raw : Frame) : Except TypedResponseError (SingleMode × Frame) :=
  match Frame.get raw "single" with
  | (none, raw') => .ok (.disabled, raw')
  | (some val, raw') =>
    match val with
    | "0" => .ok (.disabled, raw')
    | "1" => .ok (.enabled, raw')
    | "oneshot" => .ok (.oneshot, raw')
    | _ => .error ⟨"single", .invalidValue val⟩

/-- Second block of `Status::from_frame`: compute the duration. A present
`duration` field is parsed directly; otherwise a present legacy `time` field
is split once on the colon and its second half parsed (no colon is an
InvalidValue error on `time`); otherwise the duration is None. -/
def statusDuration (raw : Frame) : Except TypedResponseError (Option Duration × Frame) :=
  match Frame.get raw "duration" with
  | (some val, raw') => (Duration.from_value val "duration").map (fun d => (some d, raw'))
  | (none, _) =>
    match Frame.get raw "time" with
    | (some time, raw') =>
      match split_once time ':' with
      | some (_, dur) => (Duration.from_value dur "time").map (fun d => (some d, raw'))
      | none => .error ⟨"time", .invalidValue time⟩
    | (none, raw') => .ok (none, raw')

/-- Remaining fields of `Status::from_frame`, in the evaluation order of the
source's struct literal, threading the consuming frame through. -/
def statusRest (f0 : Frame) (single : SingleMode) (duration : Option Duration) :
    Except TypedResponseError Status :=
  match optional_value (parse_integer u8Max) f0 "volume" with
  | .error e => .error e
  | .ok (volume, f1) =>
  match value PlayState.from_value f1 "state" with
  | .error e => .error e
  | .ok (state, f2) =>
  match value bool_from_value f2 "repeat" with
  | .error e => .error e
  | .ok (repeatV, f3) =>
  match value bool_from_value f3 "random" with
  | .error e => .error e
  | .ok (random, f4) =>
  match value bool_from_value f4 "consume" with
  | .error e => .error e
  | .ok (consume, f5) =>
  match optional_value (parse_integer usizeMax) f5 "playlistlength" with
  | .error e => .error e
  | .ok (playlistLength, f6) =>
  match optional_value (parse_integer u32Max) f6 "playlist" with
  | .error e => .error e
  | .ok (playlistVersion, f7) =>
  match song_identifier f7 "song" "songid" with
  | .error e => .error e
  | .ok (currentSong, f8) =>
  match song_identifier f8 "nextsong" "nextsongid" with
  | .error e => .error e
  | .ok (nextSong, f9) =>
  match optional_value Duration.from_value f9 "elapsed" with
  | .error e => .error e
  | .ok (elapsed, f10) =>
  match optional_value (parse_integer u64Max) f10 "bitrate" with
  | .error e => .error e
  | .ok (bitrate, f11) =>
  match optional_value Duration.from_value f11 "xfade" with
  | .error e => .error e
  | .ok (xfade, f12) =>
  match optional_value (parse_integer u64Max) f12 "update_job" with
  | .error e => .error e
  | .ok (updateJob, f13) =>
  let (errorV, f14) := Frame.get f13 "error"
  let (partition, _) := Frame.get f14 "partition"
  .ok {
    volume := volume.getD 0
    state := state
    repeatMode := repeatV
    random := random
    consume := consume
    single := single
    playlist_version := playlistVersion.getD 0
    playlist_length := playlistLength.getD 0
    current_song := currentSong
    next_song := nextSong
    elapsed := elapsed
    duration := duration
    bitrate := bitrate
    crossfade := xfade.getD Duration.ZERO
    update_job := updateJob
    error := errorV
    partition := partition
  }

/-- The `Status::from_frame` converter: the `single` block, then the
duration block, then the remaining fields. -/
def Status.from_frame (raw : Frame) : Except TypedResponseError Status :=
  match statusSingle raw with
  | .error e => .error e
  | .ok (single, raw₁) =>
    match statusDuration raw₁ with
    | .error e => .error e
    | .ok (duration, raw₂) => statusRest raw₂ single duration

/-! ## Stats converter -/

/-- The Stats response record. -/
structure Stats where
  artists : Nat
  albums : Nat
  songs : Nat
  uptime : Duration
  playtime : Duration
  db_playtime : Duration
  db_last_update : Nat
deriving DecidableEq, Repr

/-- The `Stats::from_frame` converter: seven required fields, read in the
order of the source's struct literal. -/
def Stats.from_frame (f0 : Frame) : Except TypedResponseError Stats :=
  match value (parse_integer u64Max) f0 "artists" with
  | .error e => .error e
  | .ok (artists, f1) =>
  match value (parse_integer u64Max) f1 "albums" with
  | .error e => .error e
  | .ok (albums, f2) =>
  match value (parse_integer u64Max) f2 "songs" with
  | .error e => .error e
  | .ok (songs, f3) =>
  match value Duration.from_value f3 "uptime" with
  | .error e => .error e
  | .ok (uptime, f4) =>
  match value Duration.from_value f4 "playtime" with
  | .error e => .error e
  | .ok (playtime, f5) =>
  match value Duration.from_value f5 "db_playtime" with
  | .error e => .error e
  | .ok (dbPlaytime, f6) =>
  match value (parse_integer u64Max) f6 "db_update" with
  | .error e => .error e
  | .ok (dbLastUpdate, _) =>
    .ok ⟨artists, albums, songs, uptime, playtime, dbPlaytime, dbLastUpdate⟩

/-! ## Raw commands and responses (modelled from the spec) -/

/-- Decidable equality for Except, needed to evaluate trace equalities on
concrete inputs. -/
instance {ε α : Type} [DecidableEq ε] [DecidableEq α] : DecidableEq (Except ε α) := fun x y =>
  match x, y with
  | .ok a, .ok b =>
    if h : a = b then isTrue (congrArg Except.ok h)
    else isFalse (fun hh => h (Except.ok.inj hh))
  | .error a, .error b =>
    if h : a = b then isTrue (congrArg Except.error h)
    else isFalse (fun hh => h (Except.error.inj hh))
  | .ok _, .error _ => isFalse (fun hh => Except.noConfusion hh)
  | .error _, .ok _ => isFalse (fun hh => Except.noConfusion hh)

/-- Modelled from the spec: a RawCommand is a command name plus ordered
argument strings. -/
structure RawCommand where
  command : String
  args : List String
deriving DecidableEq, Repr

/-- RawCommand::new. -/
def RawCommand.new (command : String) : RawCommand := ⟨command, []⟩

/-- The `idle` helper of client.rs. -/
def idle : RawCommand := RawCommand.new "idle"

/-- The `cancel_idle` helper of client.rs. -/
def cancel_idle : RawCommand := RawCommand.new "noidle"

/-- Modelled from the spec: a RawCommandList is a non-empty ordered sequence
of RawCommand. -/
structure RawCommandList where
  first : RawCommand
  rest : List RawCommand
deriving DecidableEq, Repr

/-- RawCommandList::new. -/
def RawCommandList.new (c : RawCommand) : RawCommandList := ⟨c, []⟩

/-- Modelled from the spec: an MPD ACK error, with code, command-list index,
current command name and message. -/
structure MpdError where
  code : Nat
  list_index : Nat
  command : String
  message : String
deriving DecidableEq, Repr

/-- Modelled from the spec: the codec's error conditions are transport Io
errors and InvalidMessage framing errors. -/
inductive MpdCodecError
  | io
  | invalidMessage
deriving DecidableEq, Repr

/-- Modelled from the spec: a RawResponse is an ordered sequence of frames or
MPD errors, one item per command of the submission. -/
def RawResponse : Type := List (Except MpdError Frame)

instance : DecidableEq RawResponse := inferInstanceAs (DecidableEq (List (Except MpdError Frame)))

instance : Repr RawResponse := inferInstanceAs (Repr (List (Except MpdError Frame)))

/-- Modelled from the spec and the use sites: a successful single-command
response contains exactly one Ok frame; `single_frame` yields it, and an
error item yields the error. The responses fed to it in this development
always hold at least one item, so the empty case (impossible for the codec)
maps to a dummy error. -/
def RawResponse.single_frame : RawResponse → Except MpdError Frame
  | (Except.ok f) :: _ => .ok f
  | (Except.error e) :: _ => .error e
  | [] => .error ⟨0, 0, "", ""⟩

/-- Modelled from the spec: errors surfaced on the state-changes channel.
The spec lists Io and InvalidMessage; the third variant carries the MPD
error produced when the frame terminating an idle is itself an error
response, which `single_frame` can surface. -/
inductive StateChangeError
  | io
  | invalidMessage
  | invalidResponse (e : MpdError)
deriving DecidableEq, Repr

/-- Conversion of a codec error into a StateChangeError. -/
def StateChangeError.ofCodec : MpdCodecError → StateChangeError
  | .io => .io
  | .invalidMessage => .invalidMessage

/-- Modelled from the spec: the command error surface. -/
inductive CommandError
  | connectionClosed
  | io
  | invalidMessage
  | errorResponse (error : MpdError) (succesful_frames : List Frame)
  | typedResponse (e : TypedResponseError)
deriving DecidableEq, Repr

/-- Conversion of a codec error into a CommandError. -/
def CommandError.ofCodec : MpdCodecError → CommandError
  | .io => .io
  | .invalidMessage => .invalidMessage

/-- Modelled from the spec: the closed enum of MPD subsystems plus a
catch-all for unknown names. -/
inductive Subsystem
  | database
  | update
  | storedPlaylist
  | queue
  | player
  | mixer
  | output
  | options
  | partition
  | sticker
  | subscription
  | message
  | other (name : String)
deriving DecidableEq, Repr

/-- Modelled from the spec: map a raw subsystem name to the enum; the wire
name `playlist` denotes the queue. -/
def Subsystem.from_raw_string (s : String) : Subsystem :=
  match s with
  | "database" => .database
  | "update" => .update
  | "stored_playlist" => .storedPlaylist
  | "playlist" => .queue
  | "player" => .player
  | "mixer" => .mixer
  | "output" => .output
  | "options" => .options
  | "partition" => .partition
  | "sticker" => .sticker
  | "subscription" => .subscription
  | "message" => .message
  | _ => .other s

/-! ## The multiplexer (client.rs)

The run loop is asynchronous code over a transport, a bounded command
channel and an unbounded state-changes channel. The embedding scripts the
effects: reads and write outcomes come from a `Conn` script, the channel
events are inputs, and every externally visible action (transport write,
state-changes send, responder send) is recorded in an ordered trace. -/

/-- The `response_to_subsystem` function of client.rs: take the single frame
of the response and map its first `changed` field (if any) to a subsystem.
A frame without a `changed` field yields no notification. -/
def response_to_subsystem (res : RawResponse) : Except StateChangeError (Option Subsystem) :=
  match RawResponse.single_frame res with
  | .error e => .error (.invalidResponse e)
  | .ok frame =>
    match (Frame.get frame "changed").1 with
    | some raw => .ok (some (Subsystem.from_raw_string raw))
    | none => .ok none

/-- Model of `Result::transpose` on a result of an optional value. -/
def exceptTranspose {ε α : Type} : Except ε (Option α) → Option (Except ε α)
  | .ok none => none
  | .ok (some a) => some (.ok a)
  | .error e => some (.error e)

/-- The multiplexer's loop state (`LoopState` of client.rs). Responders are
identified by numbers. -/
inductive LoopState
  | idling
  | waitingForCommandReply (responder : Nat)
deriving DecidableEq, Repr

/-- Outcome of the select in the Idling arm: the transport became readable,
or the command channel yielded a submission (None when the channel closed). -/
inductive IdleEvent
  | transportReady
  | commandArrived (cmd : Option (RawCommandList × Nat))
deriving DecidableEq, Repr

/-- Outcome of the non-blocking `try_recv` on the command channel. -/
inductive TryRecvResult
  | ok (cmd : RawCommandList × Nat)
  | empty
  | closed
deriving DecidableEq, Repr

/-- A command written to the transport: a bare RawCommand (idle / noidle) or
a user RawCommandList. -/
inductive WireCommand
  | single (c : RawCommand)
  | list (l : RawCommandList)
deriving DecidableEq, Repr

/-- Externally visible actions of one loop iteration, in order. -/
inductive TraceEvent
  | write (c : WireCommand)
  | stateChange (r : Except StateChangeError Subsystem)
  | respond (responder : Nat) (r : Except CommandError RawResponse)
deriving DecidableEq, Repr

/-- Script of the transport: pending read results (an exhausted list reads
as end of stream) and outcomes of successive writes (an exhausted list means
every write succeeds). -/
structure Conn where
  reads : List (Except MpdCodecError RawResponse)
  sendResults : List (Option MpdCodecError)
deriving DecidableEq, Repr

/-- One `connection.next()` call against the script. -/
def Conn.next (c : Conn) : Option (Except MpdCodecError RawResponse) × Conn :=
  match c.reads with
  | [] => (none, c)
  | r :: rest => (some r, { c with reads := rest })

/-- One `connection.send(..)` call against the script. -/
def Conn.send (c : Conn) : Except MpdCodecError Unit × Conn :=
  match c.sendResults with
  | [] => (.ok (), c)
  | none :: rest => (.ok (), { c with sendResults := rest })
  | some e :: rest => (.error e, { c with sendResults := rest })

/-- Result of one loop iteration: the ordered trace of visible actions, the
next loop state (None when the loop exits) and the remaining script. -/
structure IterResult where
  trace : List TraceEvent
  next : Option LoopState
  conn : Conn
deriving DecidableEq, Repr

/-- The `run_loop_iteration` function of client.rs over the scripted
effects. `ev` is the select outcome used in the Idling arm; `tr` is the
`try_recv` outcome used in the WaitingForCommandReply arm. -/
def run_loop_iteration (loopState : LoopState) (ev : IdleEvent) (tr : TryRecvResult)
    (conn : Conn) : IterResult :=
  match loopState with
  | .idling =>
    match ev with
    | .transportReady =>
      match Conn.next conn with
      | (none, conn) => ⟨[], none, conn⟩
      | (some (.error e), conn) =>
        ⟨[.stateChange (.error (StateChangeError.ofCodec e))], none, conn⟩
      | (some (.ok res), conn) =>
        let scTrace :=
          match exceptTranspose (response_to_subsystem res) with
          | some sc => [TraceEvent.stateChange sc]
          | none => []
        match Conn.send conn with
        | (.ok _, conn) => ⟨scTrace ++ [.write (.single idle)], some .idling, conn⟩
        | (.error e, conn) =>
          ⟨scTrace ++ [.stateChange (.error (StateChangeError.ofCodec e))], none, conn⟩
    | .commandArrived none => ⟨[], none, conn⟩
    | .commandArrived (some (command, responder)) =>
      match Conn.send conn with
      | (.error e, conn) =>
        ⟨[.respond responder (.error (CommandError.ofCodec e))], none, conn⟩
      | (.ok _, conn) =>
        match Conn.next conn with
        | (none, conn) => ⟨[.write (.single cancel_idle)], none, conn⟩
        | (some (.error e), conn) =>
          ⟨[.write (.single cancel_idle),
            .respond responder (.error (CommandError.ofCodec e))], none, conn⟩
        | (some (.ok res), conn) =>
          let scTrace :=
            match exceptTranspose (response_to_subsystem res) with
            | some sc => [TraceEvent.stateChange sc]
            | none => []
          match Conn.send conn with
          | (.ok _, conn) =>
            ⟨[.write (.single cancel_idle)] ++ scTrace ++ [.write (.list command)],
             some (.waitingForCommandReply responder), conn⟩
          | (.error e, conn) =>
            ⟨[.write (.single cancel_idle)] ++ scTrace
               ++ [.respond responder (.error (CommandError.ofCodec e))], none, conn⟩
  | .waitingForCommandReply responder =>
    match Conn.next conn with
    | (none, conn) => ⟨[], none, conn⟩
    | (some response, conn) =>
      let respondEvent := TraceEvent.respond responder (response.mapError CommandError.ofCodec)
      match tr with
      | .ok (command, responder2) =>
        match Conn.send conn with
        | (.ok _, conn) =>
          ⟨[respondEvent, .write (.list command)],
           some (.waitingForCommandReply responder2), conn⟩
        | (.error e, conn) =>
          ⟨[respondEvent, .respond responder2 (.error (CommandError.ofCodec e))], none, conn⟩
      | .empty =>
        match Conn.send conn with
        | (.ok _, conn) => ⟨[respondEvent, .write (.single idle)], some .idling, conn⟩
        | (.error e, conn) =>
          ⟨[respondEvent, .stateChange (.error (StateChangeError.ofCodec e))], none, conn⟩
      | .closed => ⟨[respondEvent], none, conn⟩

/-- Transport writes contained in a trace, in order. -/
def writesOf (t : List TraceEvent) : List WireCommand :=
  t.filterMap (fun e => match e with | .write c => some c | _ => none)

/-- State-changes channel sends contained in a trace, in order. -/
def stateChangeEvents (t : List TraceEvent) : List (Except StateChangeError Subsystem) :=
  t.filterMap (fun e => match e with | .stateChange r => some r | _ => none)

/-! ## Client handle operations (client.rs) -/

/-- The collection loop of `Client::raw_command_list`: push Ok frames in
order; at the first Err item return an ErrorResponse carrying the frames
collected so far. -/
def raw_command_list_go (frames : List Frame) : RawResponse → Except CommandError (List Frame)
  | [] => .ok frames
  | (Except.ok f) :: rest => raw_command_list_go (frames ++ [f]) rest
  | (Except.error e) :: _ => .error (.errorResponse e frames)

/-- The `Client::raw_command_list` result for a given RawResponse (the
response delivered by `do_send` for the submission). -/
def raw_command_list (res : RawResponse) : Except CommandError (List Frame) :=
  raw_command_list_go [] res

/-- The `Client::command_list` operation. `send` stands for `do_send` (one
submission of a RawCommandList over the command channel); `convert` stands
for the typed conversion of each frame. The second component of the result
records the submissions performed, in order. -/
def Client.command_list {β : Type} (send : RawCommandList → Except CommandError RawResponse)
    (convert : Frame → Except TypedResponseError β) (cmds : List RawCommand) :
    Except CommandError (List β) × List RawCommandList :=
  match cmds with
  | [] => (.ok [], [])
  | c :: rest =>
    let cl : RawCommandList := ⟨c, rest⟩
    let result : Except CommandError (List β) :=
      match send cl with
      | .error e => .error e
      | .ok res =>
        match raw_command_list res with
        | .error e => .error e
        | .ok frames =>
          match frames.mapM convert with
          | .ok vs => .ok vs
          | .error e => .error (.typedResponse e)
    (result, [cl])

/-! ## Helper lemmas -/

theorem raw_command_list_go_ok (fs : List Frame) : ∀ acc : List Frame,
    raw_command_list_go acc (fs.map Except.ok) = .ok (acc ++ fs) := by
  induction fs with
  | nil => intro acc; simp [raw_command_list_go]
  | cons f rest ih =>
    intro acc
    simp only [List.map_cons, raw_command_list_go, ih]
    simp

theorem raw_command_list_go_err (fs : List Frame) (e : MpdError)
    (rest : List (Except MpdError Frame)) : ∀ acc : List Frame,
    raw_command_list_go acc (fs.map Except.ok ++ Except.error e :: rest)
      = .error (.errorResponse e (acc ++ fs)) := by
  induction fs with
  | nil => intro acc; simp [raw_command_list_go]
  | cons f fs ih =>
    intro acc
    rw [List.map_cons, List.cons_append]
    rw [show raw_command_list_go acc (Except.ok f :: (fs.map Except.ok ++ Except.error e :: rest))
          = raw_command_list_go (acc ++ [f]) (fs.map Except.ok ++ Except.error e :: rest) from rfl]
    rw [ih]
    simp

theorem frameGetGo_fst (key : String) : ∀ l : List (String × String),
    (frameGetGo key l).1 = (l.filterMap (fun p => if p.1 = key then some p.2 else none)).head? := by
  intro l
  induction l with
  | nil => rfl
  | cons p rest ih =>
    obtain ⟨k, v⟩ := p
    by_cases h : k = key
    · simp [frameGetGo, h]
    · simp [frameGetGo, h, ih]

theorem frameGet_changed (fr : Frame) :
    (Frame.get fr "changed").1 = (changedValues fr).head? := by
  unfold Frame.get changedValues
  exact frameGetGo_fst "changed" fr.fields

theorem response_to_subsystem_single (fr : Frame) :
    response_to_subsystem [Except.ok fr]
      = .ok ((changedValues fr).head?.map Subsystem.from_raw_string) := by
  unfold response_to_subsystem RawResponse.single_frame
  dsimp only
  rw [frameGet_changed fr]
  cases (changedValues fr).head? <;> simp

theorem transpose_rts_single (fr : Frame) :
    exceptTranspose (response_to_subsystem [Except.ok fr])
      = (changedValues fr).head?.map (fun v => Except.ok (Subsystem.from_raw_string v)) := by
  rw [response_to_subsystem_single]
  cases (changedValues fr).head? <;> simp [exceptTranspose]

theorem value_eq_ok {α : Type} (fv : String → String → Except TypedResponseError α)
    (f : Frame) (field v : String) (f' : Frame) (a : α)
    (hget : Frame.get f field = (some v, f')) (hconv : fv v field = .ok a) :
    value fv f field = .ok (a, f') := by
  unfold value
  rw [hget]
  dsimp only
  rw [hconv]
  rfl

theorem value_missing {α : Type} (fv : String → String → Except TypedResponseError α)
    (f : Frame) (field : String) (h : (Frame.get f field).1 = none) :
    value fv f field = .error ⟨field, .missing⟩ := by
  unfold value
  rcases hp : Frame.get f field with ⟨o, f2⟩
  rw [hp] at h
  dsimp only at h
  subst h
  rfl

theorem optional_value_eq_some {α : Type} (fv : String → String → Except TypedResponseError α)
    (f : Frame) (field v : String) (f' : Frame) (a : α)
    (hget : Frame.get f field = (some v, f')) (hconv : fv v field = .ok a) :
    optional_value fv f field = .ok (some a, f') := by
  unfold optional_value
  rw [hget]
  dsimp only
  rw [hconv]
  rfl

theorem optional_value_none {α : Type} (fv : String → String → Except TypedResponseError α)
    (f : Frame) (field : String) (h : (Frame.get f field).1 = none) :
    optional_value fv f field = .ok (none, (Frame.get f field).2) := by
  unfold optional_value
  rcases hp : Frame.get f field with ⟨o, f2⟩
  rw [hp] at h
  dsimp only at h
  subst h
  rfl

theorem statusRest_duration (f : Frame) (s : SingleMode) (d : Option Duration) (st : Status)
    (h : statusRest f s d = .ok st) : st.duration = d := by
  unfold statusRest at h
  repeat' split at h
  all_goals simp_all
  all_goals (cases h; rfl)

/-! ## Claim C1 -/

/-- Counterexample to claim C1: a frame carrying two `changed` fields emits
only one notification (for the first field), not one per field. -/
theorem C1_counterexample :
    stateChangeEvents (run_loop_iteration .idling .transportReady .empty
        ⟨[.ok [.ok ⟨[("changed", "player"), ("changed", "mixer")]⟩]], []⟩).trace
      ≠ (changedValues ⟨[("changed", "player"), ("changed", "mixer")]⟩).map
          (fun v => Except.ok (Subsystem.from_raw_string v)) := by
  decide

/-- Claim C1 as amended: for every frame received while the multiplexer is
idling, exactly one notification is emitted into the state-changes channel
when the frame contains at least one `changed` field, carrying the first
such value (in insertion order); a frame with no `changed` field emits
nothing. Stated over a script whose writes succeed. -/
theorem C1_idle_frame_first_changed (fr : Frame) (tr : TryRecvResult)
    (restReads : List (Except MpdCodecError RawResponse)) :
    stateChangeEvents (run_loop_iteration .idling .transportReady tr
        ⟨(.ok [.ok fr]) :: restReads, []⟩).trace
      = ((changedValues fr).head?.map
          (fun v => Except.ok (Subsystem.from_raw_string v))).toList := by
  cases h : (changedValues fr).head? <;>
    simp [run_loop_iteration, Conn.next, Conn.send, transpose_rts_single, h,
      stateChangeEvents, idle, RawCommand.new]

/-! ## Claim C2 -/

/-- Counterexample to claim C2: when a command preempts idling and the frame
terminating the canceled idle carries two `changed` fields, the second one is
never sent into the state-changes channel, so not every notification carried
in that frame is delivered. -/
theorem C2_counterexample :
    ("database" ∈ changedValues ⟨[("changed", "playlist"), ("changed", "database")]⟩)
    ∧ TraceEvent.stateChange (.ok (Subsystem.from_raw_string "database"))
        ∉ (run_loop_iteration .idling
            (.commandArrived (some (RawCommandList.new (RawCommand.new "status"), 5))) .empty
            ⟨[.ok [.ok ⟨[("changed", "playlist"), ("changed", "database")]⟩]], []⟩).trace := by
  decide

/-- Claim C2 as amended: when a command submission preempts idling, the
multiplexer writes noidle, then awaits exactly one frame (one read is
consumed from the transport script), and the notification for the first
`changed` field of that frame (if any) is sent into the state-changes
channel before the user command is written. Stated over a script whose
writes succeed. -/
theorem C2_preempt_order (fr : Frame) (cmd : RawCommandList) (r : Nat) (tr : TryRecvResult)
    (restReads : List (Except MpdCodecError RawResponse)) :
    run_loop_iteration .idling (.commandArrived (some (cmd, r))) tr
        ⟨(.ok [.ok fr]) :: restReads, []⟩
      = ⟨TraceEvent.write (.single cancel_idle)
           :: ((changedValues fr).head?.map
                (fun v => TraceEvent.stateChange (.ok (Subsystem.from_raw_string v)))).toList
           ++ [TraceEvent.write (.list cmd)],
         some (.waitingForCommandReply r), ⟨restReads, []⟩⟩ := by
  cases h : (changedValues fr).head? <;>
    simp [run_loop_iteration, Conn.next, Conn.send, transpose_rts_single, h]

/-! ## Claim C3 -/

/-- Claim C3: every successful command submission causes exactly one write of
the command, preceded by noidle iff the prior state was Idling: from Idling
the writes are noidle then the command; from AwaitingReply, after the reply
is delivered, a queued command (non-blocking check succeeds) is written
directly with no idle or noidle writes, and an empty channel produces a
single idle write and a return to Idling. Stated over a script whose writes
succeed. -/
theorem C3_command_write_discipline :
    (∀ (fr : Frame) (cmd : RawCommandList) (r : Nat) (tr : TryRecvResult)
        (rs : List (Except MpdCodecError RawResponse)),
        writesOf (run_loop_iteration .idling (.commandArrived (some (cmd, r))) tr
            ⟨(.ok [.ok fr]) :: rs, []⟩).trace
          = [.single cancel_idle, .list cmd]
        ∧ (run_loop_iteration .idling (.commandArrived (some (cmd, r))) tr
            ⟨(.ok [.ok fr]) :: rs, []⟩).next = some (.waitingForCommandReply r))
    ∧ (∀ (res : RawResponse) (r : Nat) (cmd2 : RawCommandList) (r2 : Nat) (ev : IdleEvent)
        (rs : List (Except MpdCodecError RawResponse)),
        run_loop_iteration (.waitingForCommandReply r) ev (.ok (cmd2, r2))
            ⟨(.ok res) :: rs, []⟩
          = ⟨[.respond r (.ok res), .write (.list cmd2)],
             some (.waitingForCommandReply r2), ⟨rs, []⟩⟩)
    ∧ (∀ (res : RawResponse) (r : Nat) (ev : IdleEvent)
        (rs : List (Except MpdCodecError RawResponse)),
        run_loop_iteration (.waitingForCommandReply r) ev .empty ⟨(.ok res) :: rs, []⟩
          = ⟨[.respond r (.ok res), .write (.single idle)], some .idling, ⟨rs, []⟩⟩) := by
  refine ⟨?_, ?_, ?_⟩
  · intro fr cmd r tr rs
    constructor
    · cases h : (changedValues fr).head? <;>
        simp [run_loop_iteration, Conn.next, Conn.send, transpose_rts_single, h, writesOf]
    · cases h : (changedValues fr).head? <;>
        simp [run_loop_iteration, Conn.next, Conn.send, transpose_rts_single, h]
  · intro res r cmd2 r2 ev rs
    simp [run_loop_iteration, Conn.next, Conn.send, Except.mapError]
  · intro res r ev rs
    simp [run_loop_iteration, Conn.next, Conn.send, Except.mapError]

/-! ## Claim C4 -/

/-- Claim C4: for every command-list submission whose RawResponse contains an
Err item, raw_command_list returns an ErrorResponse error carrying the
MpdError together with exactly the successful frames that preceded the
failing command, in order; if all items are Ok it returns all frames in
order. -/
theorem C4_raw_command_list_error_prefix :
    (∀ (fs : List Frame) (e : MpdError) (rest : List (Except MpdError Frame)),
        raw_command_list (fs.map Except.ok ++ Except.error e :: rest)
          = .error (.errorResponse e fs))
    ∧ (∀ fs : List Frame, raw_command_list (fs.map Except.ok) = .ok fs) := by
  constructor
  · intro fs e rest
    unfold raw_command_list
    rw [raw_command_list_go_err]
    simp
  · intro fs
    unfold raw_command_list
    rw [raw_command_list_go_ok]
    simp

/-! ## Claim C8 -/

/-- Claim C8: for every empty input iterator, command_list returns Ok with an
empty Vec immediately, and no submission is sent to the command channel
(the recorded submission list is empty), regardless of the send and convert
behaviour. -/
theorem C8_command_list_empty {β : Type} (send : RawCommandList → Except CommandError RawResponse)
    (convert : Frame → Except TypedResponseError β) :
    Client.command_list send convert [] = (.ok [], []) := rfl

/-! ## Claim C5 -/

theorem parse_duration_ok_of (field s : String) (q : ℚ)
    (hq : parseF64 s = some (F64.finite q)) (h0 : 0 ≤ q) (hm : q ≤ durationMaxSecsF64) :
    parse_duration field s = .ok (Duration.from_secs_f64 (F64.finite q)) := by
  unfold parse_duration
  rw [hq]
  simp [F64.ge_zero, F64.le_finite, F64.is_finite, h0, hm]

/-- Claim C5: the duration parser succeeds if and only if the input parses as
an f64 that is finite, non-negative and at most Duration MAX in seconds, and
on success the result is from_secs_f64 of the parsed value. -/
theorem C5_duration_parser_accepts (field s : String) :
    ((∃ d, parse_duration field s = .ok d) ↔
      ∃ q, parseF64 s = some (F64.finite q) ∧ 0 ≤ q ∧ q ≤ durationMaxSecsF64)
    ∧ (∀ q, parseF64 s = some (F64.finite q) → 0 ≤ q → q ≤ durationMaxSecsF64 →
        parse_duration field s = .ok (Duration.from_secs_f64 (F64.finite q))) := by
  have accept : ∀ q : ℚ, parseF64 s = some (F64.finite q) → 0 ≤ q → q ≤ durationMaxSecsF64 →
      parse_duration field s = .ok (Duration.from_secs_f64 (F64.finite q)) :=
    fun q => parse_duration_ok_of field s q
  refine ⟨⟨?_, ?_⟩, accept⟩
  · rintro ⟨d, hd⟩
    unfold parse_duration at hd
    cases hp : parseF64 s with
    | none => rw [hp] at hd; exact absurd hd (by simp)
    | some v =>
      rw [hp] at hd
      dsimp only at hd
      by_cases hg : (v.ge_zero && v.le_finite durationMaxSecsF64 && v.is_finite) = true
      · cases v with
        | nan => simp [F64.ge_zero] at hg
        | inf => simp [F64.le_finite] at hg
        | negInf => simp [F64.ge_zero] at hg
        | finite q =>
          refine ⟨q, rfl, ?_, ?_⟩ <;>
            simp only [F64.ge_zero, F64.le_finite, F64.is_finite, Bool.and_true,
              Bool.and_eq_true, decide_eq_true_eq] at hg
          · exact hg.1
          · exact hg.2
      · rw [if_neg hg] at hd
        exact absurd hd (by simp)
  · rintro ⟨q, hq, h0, hm⟩
    exact ⟨_, accept q hq h0 hm⟩

/-! ## Claim C9 -/

/-- Claim C9: a string that does not parse as an f64 gives a MalformedFloat
error, while a string that parses to a value that is non-finite, negative or
above Duration MAX seconds gives an InvalidValue error carrying the original
input string; both carry the field name. -/
theorem C9_duration_parser_error_kinds (field s : String) :
    (parseF64 s = none → parse_duration field s = .error ⟨field, .malformedFloat⟩)
    ∧ (∀ v, parseF64 s = some v →
        (v.is_finite = false ∨ ∃ q, v = F64.finite q ∧ (q < 0 ∨ durationMaxSecsF64 < q)) →
        parse_duration field s = .error ⟨field, .invalidValue s⟩) := by
  constructor
  · intro h
    unfold parse_duration
    rw [h]
  · rintro v hv hbad
    unfold parse_duration
    rw [hv]
    dsimp only
    have hg : (v.ge_zero && v.le_finite durationMaxSecsF64 && v.is_finite) = false := by
      rcases hbad with hnf | ⟨q, rfl, hq⟩
      · cases v <;> simp_all [F64.is_finite]
      · rcases hq with hlt | hgt
        · simp [F64.ge_zero, not_le.mpr hlt]
        · simp [F64.le_finite, not_le.mpr hgt]
    rw [if_neg (by simp [hg])]

/-- Witness for C5: the string 2 parses to the finite value two, which is
accepted and converted. -/
theorem C5_witness :
    parse_duration "duration" "2" = .ok (Duration.from_secs_f64 (F64.finite 2)) :=
  (C5_duration_parser_accepts "duration" "2").2 2 (by decide) (by norm_num)
    (by norm_num [durationMaxSecsF64])

/-- Witness for C9: a non-float string is MalformedFloat and the strings -1,
inf and NaN are InvalidValue, carrying the field and original input. -/
theorem C9_witness :
    parse_duration "duration" "abc" = .error ⟨"duration", .malformedFloat⟩
    ∧ parse_duration "duration" "-1" = .error ⟨"duration", .invalidValue "-1"⟩
    ∧ parse_duration "duration" "inf" = .error ⟨"duration", .invalidValue "inf"⟩
    ∧ parse_duration "duration" "NaN" = .error ⟨"duration", .invalidValue "NaN"⟩ :=
  ⟨(C9_duration_parser_error_kinds "duration" "abc").1 (by decide),
   (C9_duration_parser_error_kinds "duration" "-1").2 (F64.finite (-1)) (by decide)
     (Or.inr ⟨-1, rfl, Or.inl (by norm_num)⟩),
   (C9_duration_parser_error_kinds "duration" "inf").2 F64.inf (by decide) (Or.inl rfl),
   (C9_duration_parser_error_kinds "duration" "NaN").2 F64.nan (by decide) (Or.inl rfl)⟩

/-! ## Claim C6 -/

/-- Claim C6: the Status converter sets the duration field as follows (the
`single` block, which the converter evaluates first, is assumed to succeed):
if a `duration` field is present it is parsed directly as a duration (a
parse failure propagates as the conversion result); otherwise, a present
legacy `time` field is split once on the colon and the second half parsed as
the duration; a `time` value with no colon fails the conversion with
InvalidValue on field `time`; with neither field, the duration is None. -/
theorem C6_status_duration (raw : Frame) (m : SingleMode) (raw₁ : Frame)
    (hsingle : statusSingle raw = .ok (m, raw₁)) :
    (∀ v raw₂, Frame.get raw₁ "duration" = (some v, raw₂) →
      (∀ st, Status.from_frame raw = .ok st →
         ∃ d, parse_duration "duration" v = .ok d ∧ st.duration = some d)
      ∧ (∀ e, parse_duration "duration" v = .error e → Status.from_frame raw = .error e))
    ∧ ((Frame.get raw₁ "duration").1 = none →
        (∀ t raw₂, Frame.get raw₁ "time" = (some t, raw₂) →
          (∀ pre post, split_once t ':' = some (pre, post) →
            ∀ st, Status.from_frame raw = .ok st →
              ∃ d, parse_duration "time" post = .ok d ∧ st.duration = some d)
          ∧ (split_once t ':' = none →
              Status.from_frame raw = .error ⟨"time", .invalidValue t⟩))
        ∧ ((Frame.get raw₁ "time").1 = none →
            ∀ st, Status.from_frame raw = .ok st → st.duration = none)) := by
  constructor
  · intro v raw₂ hget
    have hd : statusDuration raw₁ = (parse_duration "duration" v).map (fun d => (some d, raw₂)) := by
      unfold statusDuration
      rw [hget]
      rfl
    constructor
    · intro st hst
      unfold Status.from_frame at hst
      rw [hsingle] at hst
      dsimp only at hst
      rw [hd] at hst
      cases hp : parse_duration "duration" v with
      | error e => rw [hp] at hst; exact absurd hst (by simp [Except.map])
      | ok d =>
        rw [hp] at hst
        dsimp only [Except.map] at hst
        exact ⟨d, rfl, by rw [statusRest_duration _ _ _ _ hst]⟩
    · intro e hp
      unfold Status.from_frame
      rw [hsingle]
      dsimp only
      rw [hd, hp]
      rfl
  · intro hnone
    have hgetd : Frame.get raw₁ "duration" = (none, (Frame.get raw₁ "duration").2) := by
      rw [← hnone]
    constructor
    · intro t raw₂ hgett
      constructor
      · intro pre post hsplit st hst
        have hd : statusDuration raw₁ = (parse_duration "time" post).map (fun d => (some d, raw₂)) := by
          unfold statusDuration
          rw [hgetd]
          dsimp only
          rw [hgett]
          dsimp only
          rw [hsplit]
          rfl
        unfold Status.from_frame at hst
        rw [hsingle] at hst
        dsimp only at hst
        rw [hd] at hst
        cases hp : parse_duration "time" post with
        | error e => rw [hp] at hst; exact absurd hst (by simp [Except.map])
        | ok d =>
          rw [hp] at hst
          dsimp only [Except.map] at hst
          exact ⟨d, rfl, by rw [statusRest_duration _ _ _ _ hst]⟩
      · intro hsplit
        have hd : statusDuration raw₁ = .error ⟨"time", .invalidValue t⟩ := by
          unfold statusDuration
          rw [hgetd]
          dsimp only
          rw [hgett]
          dsimp only
          rw [hsplit]
        unfold Status.from_frame
        rw [hsingle]
        dsimp only
        rw [hd]
    · intro hnt st hst
      have hgett : Frame.get raw₁ "time" = (none, (Frame.get raw₁ "time").2) := by
        rw [← hnt]
      have hd : statusDuration raw₁ = .ok (none, (Frame.get raw₁ "time").2) := by
        unfold statusDuration
        rw [hgetd]
        dsimp only
        rw [hgett]
      unfold Status.from_frame at hst
      rw [hsingle] at hst
      dsimp only at hst
      rw [hd] at hst
      dsimp only at hst
      exact statusRest_duration _ _ _ _ hst

/-- Witness for C6: a frame whose `duration` value does not pass the
duration parser fails with that parse error, and a frame with a legacy
`time` value lacking a colon fails with InvalidValue on `time`. -/
theorem C6_witness :
    Status.from_frame ⟨[("duration", "-1"), ("state", "play"), ("repeat", "0"),
        ("random", "0"), ("consume", "0")]⟩
      = .error ⟨"duration", .invalidValue "-1"⟩
    ∧ Status.from_frame ⟨[("time", "5"), ("state", "play"), ("repeat", "0"),
        ("random", "0"), ("consume", "0")]⟩
      = .error ⟨"time", .invalidValue "5"⟩ :=
  ⟨((C6_status_duration
      ⟨[("duration", "-1"), ("state", "play"), ("repeat", "0"), ("random", "0"), ("consume", "0")]⟩
      .disabled
      ⟨[("duration", "-1"), ("state", "play"), ("repeat", "0"), ("random", "0"), ("consume", "0")]⟩
      (by decide)).1 "-1"
      ⟨[("state", "play"), ("repeat", "0"), ("random", "0"), ("consume", "0")]⟩
      (by decide)).2 ⟨"duration", .invalidValue "-1"⟩ (by decide),
   (((C6_status_duration
      ⟨[("time", "5"), ("state", "play"), ("repeat", "0"), ("random", "0"), ("consume", "0")]⟩
      .disabled
      ⟨[("time", "5"), ("state", "play"), ("repeat", "0"), ("random", "0"), ("consume", "0")]⟩
      (by decide)).2 (by decide)).1 "5"
      ⟨[("state", "play"), ("repeat", "0"), ("random", "0"), ("consume", "0")]⟩
      (by decide)).2 (by decide)⟩

/-! ## Claim C7 -/

/-- Claim C7: the song-identifier-pair helper returns None when the position
field is absent; when the position field is present (and parses), the id
field is required: when present (and parsing) the pair of position and id is
returned, and when absent the result is a Missing error naming the id
field. -/
theorem C7_song_identifier (f : Frame) (pf idf : String) :
    ((Frame.get f pf).1 = none →
      song_identifier f pf idf = .ok (none, (Frame.get f pf).2))
    ∧ (∀ v f', Frame.get f pf = (some v, f') →
        ∀ p, parse_integer usizeMax v pf = .ok p →
          ((∀ w f'', Frame.get f' idf = (some w, f'') →
              ∀ i, parse_integer u64Max w idf = .ok i →
                song_identifier f pf idf = .ok (some (⟨p⟩, ⟨i⟩), f''))
           ∧ ((Frame.get f' idf).1 = none →
               song_identifier f pf idf = .error ⟨idf, .missing⟩))) := by
  constructor
  · intro h
    have hov := optional_value_none (parse_integer usizeMax) f pf h
    unfold song_identifier
    rw [hov]
  · intro v f' hget p hp
    have hov := optional_value_eq_some (parse_integer usizeMax) f pf v f' p hget hp
    constructor
    · intro w f'' hgid i hi
      have hval := value_eq_ok (parse_integer u64Max) f' idf w f'' i hgid hi
      unfold song_identifier
      rw [hov]
      dsimp only
      rw [hval]
    · intro hnone
      have hval := value_missing (parse_integer u64Max) f' idf hnone
      unfold song_identifier
      rw [hov]
      dsimp only
      rw [hval]

/-- Witness for C7: an absent position gives None, a present pair is
returned, and a present position with an absent id is Missing on the id
field. -/
theorem C7_witness :
    song_identifier ⟨[("songid", "7")]⟩ "song" "songid"
      = .ok (none, ⟨[("songid", "7")]⟩)
    ∧ song_identifier ⟨[("song", "3"), ("songid", "7")]⟩ "song" "songid"
      = .ok (some (⟨3⟩, ⟨7⟩), ⟨[]⟩)
    ∧ song_identifier ⟨[("song", "3")]⟩ "song" "songid"
      = .error ⟨"songid", .missing⟩ :=
  ⟨(C7_song_identifier ⟨[("songid", "7")]⟩ "song" "songid").1 (by decide),
   (((C7_song_identifier ⟨[("song", "3"), ("songid", "7")]⟩ "song" "songid").2
      "3" ⟨[("songid", "7")]⟩ (by decide) 3 (by decide)).1
      "7" ⟨[]⟩ (by decide) 7 (by decide)),
   (((C7_song_identifier ⟨[("song", "3")]⟩ "song" "songid").2
      "3" ⟨[]⟩ (by decide) 3 (by decide)).2 (by decide))⟩

/-! ## Claim C10 -/

/-- Claim C10: the Stats converter requires the seven fields artists,
albums, songs, uptime, playtime, db_playtime and db_update, read in that
order; uptime, playtime and db_playtime are parsed under the duration rules
and the others as unsigned integers, and a frame whose first absent field
(with all earlier fields present and parsing) is one of the seven yields a
Missing error naming that field. -/
theorem C10_stats_required_fields (f0 : Frame) :
    (∀ v1 f1 n1, Frame.get f0 "artists" = (some v1, f1) →
        parse_integer u64Max v1 "artists" = .ok n1 →
     ∀ v2 f2 n2, Frame.get f1 "albums" = (some v2, f2) →
        parse_integer u64Max v2 "albums" = .ok n2 →
     ∀ v3 f3 n3, Frame.get f2 "songs" = (some v3, f3) →
        parse_integer u64Max v3 "songs" = .ok n3 →
     ∀ v4 f4 d4, Frame.get f3 "uptime" = (some v4, f4) →
        parse_duration "uptime" v4 = .ok d4 →
     ∀ v5 f5 d5, Frame.get f4 "playtime" = (some v5, f5) →
        parse_duration "playtime" v5 = .ok d5 →
     ∀ v6 f6 d6, Frame.get f5 "db_playtime" = (some v6, f6) →
        parse_duration "db_playtime" v6 = .ok d6 →
     ∀ v7 f7 n7, Frame.get f6 "db_update" = (some v7, f7) →
        parse_integer u64Max v7 "db_update" = .ok n7 →
        Stats.from_frame f0 = .ok ⟨n1, n2, n3, d4, d5, d6, n7⟩)
    ∧ ((Frame.get f0 "artists").1 = none →
        Stats.from_frame f0 = .error ⟨"artists", .missing⟩)
    ∧ (∀ v1 f1 n1, Frame.get f0 "artists" = (some v1, f1) →
        parse_integer u64Max v1 "artists" = .ok n1 →
        ((Frame.get f1 "albums").1 = none →
          Stats.from_frame f0 = .error ⟨"albums", .missing⟩)
        ∧ (∀ v2 f2 n2, Frame.get f1 "albums" = (some v2, f2) →
            parse_integer u64Max v2 "albums" = .ok n2 →
            ((Frame.get f2 "songs").1 = none →
              Stats.from_frame f0 = .error ⟨"songs", .missing⟩)
            ∧ (∀ v3 f3 n3, Frame.get f2 "songs" = (some v3, f3) →
                parse_integer u64Max v3 "songs" = .ok n3 →
                ((Frame.get f3 "uptime").1 = none →
                  Stats.from_frame f0 = .error ⟨"uptime", .missing⟩)
                ∧ (∀ v4 f4 d4, Frame.get f3 "uptime" = (some v4, f4) →
                    parse_duration "uptime" v4 = .ok d4 →
                    ((Frame.get f4 "playtime").1 = none →
                      Stats.from_frame f0 = .error ⟨"playtime", .missing⟩)
                    ∧ (∀ v5 f5 d5, Frame.get f4 "playtime" = (some v5, f5) →
                        parse_duration "playtime" v5 = .ok d5 →
                        ((Frame.get f5 "db_playtime").1 = none →
                          Stats.from_frame f0 = .error ⟨"db_playtime", .missing⟩)
                        ∧ (∀ v6 f6 d6, Frame.get f5 "db_playtime" = (some v6, f6) →
                            parse_duration "db_playtime" v6 = .ok d6 →
                            ((Frame.get f6 "db_update").1 = none →
                              Stats.from_frame f0 = .error ⟨"db_update", .missing⟩))))))) := by
  refine ⟨?_, ?_, ?_⟩
  · intro v1 f1 n1 hg1 hp1 v2 f2 n2 hg2 hp2 v3 f3 n3 hg3 hp3 v4 f4 d4 hg4 hp4
      v5 f5 d5 hg5 hp5 v6 f6 d6 hg6 hp6 v7 f7 n7 hg7 hp7
    have h1 := value_eq_ok (parse_integer u64Max) f0 "artists" v1 f1 n1 hg1 hp1
    have h2 := value_eq_ok (parse_integer u64Max) f1 "albums" v2 f2 n2 hg2 hp2
    have h3 := value_eq_ok (parse_integer u64Max) f2 "songs" v3 f3 n3 hg3 hp3
    have h4 := value_eq_ok Duration.from_value f3 "uptime" v4 f4 d4 hg4 hp4
    have h5 := value_eq_ok Duration.from_value f4 "playtime" v5 f5 d5 hg5 hp5
    have h6 := value_eq_ok Duration.from_value f5 "db_playtime" v6 f6 d6 hg6 hp6
    have h7 := value_eq_ok (parse_integer u64Max) f6 "db_update" v7 f7 n7 hg7 hp7
    simp only [Stats.from_frame, h1, h2, h3, h4, h5, h6, h7]
  · intro h
    have h1 := value_missing (parse_integer u64Max) f0 "artists" h
    simp only [Stats.from_frame, h1]
  · intro v1 f1 n1 hg1 hp1
    have h1 := value_eq_ok (parse_integer u64Max) f0 "artists" v1 f1 n1 hg1 hp1
    refine ⟨?_, ?_⟩
    · intro h
      have h2 := value_missing (parse_integer u64Max) f1 "albums" h
      simp only [Stats.from_frame, h1, h2]
    · intro v2 f2 n2 hg2 hp2
      have h2 := value_eq_ok (parse_integer u64Max) f1 "albums" v2 f2 n2 hg2 hp2
      refine ⟨?_, ?_⟩
      · intro h
        have h3 := value_missing (parse_integer u64Max) f2 "songs" h
        simp only [Stats.from_frame, h1, h2, h3]
      · intro v3 f3 n3 hg3 hp3
        have h3 := value_eq_ok (parse_integer u64Max) f2 "songs" v3 f3 n3 hg3 hp3
        refine ⟨?_, ?_⟩
        · intro h
          have h4 := value_missing Duration.from_value f3 "uptime" h
          simp only [Stats.from_frame, h1, h2, h3, h4]
        · intro v4 f4 d4 hg4 hp4
          have h4 := value_eq_ok Duration.from_value f3 "uptime" v4 f4 d4 hg4 hp4
          refine ⟨?_, ?_⟩
          · intro h
            have h5 := value_missing Duration.from_value f4 "playtime" h
            simp only [Stats.from_frame, h1, h2, h3, h4, h5]
          · intro v5 f5 d5 hg5 hp5
            have h5 := value_eq_ok Duration.from_value f4 "playtime" v5 f5 d5 hg5 hp5
            refine ⟨?_, ?_⟩
            · intro h
              have h6 := value_missing Duration.from_value f5 "db_playtime" h
              simp only [Stats.from_frame, h1, h2, h3, h4, h5, h6]
            · intro v6 f6 d6 hg6 hp6
              have h6 := value_eq_ok Duration.from_value f5 "db_playtime" v6 f6 d6 hg6 hp6
              intro h
              have h7 := value_missing (parse_integer u64Max) f6 "db_update" h
              simp only [Stats.from_frame, h1, h2, h3, h4, h5, h6, h7]

/-- Witness for C10: a complete stats frame converts to the record of parsed
values, and a frame whose first absent field is `songs` fails Missing on
`songs`. -/
theorem C10_witness :
    Stats.from_frame ⟨[("artists", "1"), ("albums", "2"), ("songs", "3"),
        ("uptime", "4"), ("playtime", "5"), ("db_playtime", "6"), ("db_update", "7")]⟩
      = .ok ⟨1, 2, 3, Duration.from_secs_f64 (F64.finite 4),
          Duration.from_secs_f64 (F64.finite 5), Duration.from_secs_f64 (F64.finite 6), 7⟩
    ∧ Stats.from_frame ⟨[("artists", "1"), ("albums", "2"),
        ("uptime", "4"), ("playtime", "5"), ("db_playtime", "6"), ("db_update", "7")]⟩
      = .error ⟨"songs", .missing⟩ :=
  ⟨(C10_stats_required_fields _).1
      "1" ⟨[("albums", "2"), ("songs", "3"), ("uptime", "4"), ("playtime", "5"),
        ("db_playtime", "6"), ("db_update", "7")]⟩ 1 (by decide) (by decide)
      "2" ⟨[("songs", "3"), ("uptime", "4"), ("playtime", "5"),
        ("db_playtime", "6"), ("db_update", "7")]⟩ 2 (by decide) (by decide)
      "3" ⟨[("uptime", "4"), ("playtime", "5"),
        ("db_playtime", "6"), ("db_update", "7")]⟩ 3 (by decide) (by decide)
      "4" ⟨[("playtime", "5"), ("db_playtime", "6"), ("db_update", "7")]⟩
        (Duration.from_secs_f64 (F64.finite 4)) (by decide)
        (parse_duration_ok_of "uptime" "4" 4 (by decide) (by norm_num)
          (by norm_num [durationMaxSecsF64]))
      "5" ⟨[("db_playtime", "6"), ("db_update", "7")]⟩
        (Duration.from_secs_f64 (F64.finite 5)) (by decide)
        (parse_duration_ok_of "playtime" "5" 5 (by decide) (by norm_num)
          (by norm_num [durationMaxSecsF64]))
      "6" ⟨[("db_update", "7")]⟩
        (Duration.from_secs_f64 (F64.finite 6)) (by decide)
        (parse_duration_ok_of "db_playtime" "6" 6 (by decide) (by norm_num)
          (by norm_num [durationMaxSecsF64]))
      "7" ⟨[]⟩ 7 (by decide) (by decide),
   (((C10_stats_required_fields _).2.2
      "1" ⟨[("albums", "2"), ("uptime", "4"), ("playtime", "5"),
        ("db_playtime", "6"), ("db_update", "7")]⟩ 1 (by decide) (by decide)).2
      "2" ⟨[("uptime", "4"), ("playtime", "5"),
        ("db_playtime", "6"), ("db_update", "7")]⟩ 2 (by decide) (by decide)).1 (by decide)⟩

end Mpd
